import Mathlib

/-!
# Verification of the Underworld cloud-droplet example notebooks

This file gives a shallow embedding of the Python code found in the
repository's Jupyter notebooks (thermal convection, steady-state heat,
Rayleigh-Taylor, uplift with traction boundary conditions) and proves the
stated properties of that code.

Calls into the external Underworld library (`solver.solve()`,
`advDiff.get_max_dt()`, `advector.integrate(dt)`, `non_dimensionalise`,
`velocity_rms()`, `uw.utils.Integral`) are treated as opaque values:
the values a call returns are parameters of the model (for example the
stream of timestep sizes returned by successive `get_max_dt()` calls),
and the state changes a call performs stay abstract.  Everything the
notebooks themselves compute — field initialisation loops, clamping,
traction formulas, branching conditionals, the time-stepping loops, the
test cells — is embedded directly from the source.
-/

/-! ## A big-step semantics for Python `while` loops

`WhileRun guard body s s'` holds when the loop `while guard: body`
started in state `s` terminates in state `s'`.  This is the standard
big-step relation: either the guard fails and the loop exits at once, or
the body runs once and the rest of the loop runs from the new state.
-/

/-- Big-step semantics of `while guard: state = body state`. -/
inductive WhileRun {σ : Type _} (guard : σ → Prop) (body : σ → σ) : σ → σ → Prop
  | done {s : σ} : ¬ guard s → WhileRun guard body s s
  | step {s s' : σ} : guard s → WhileRun guard body (body s) s' →
      WhileRun guard body s s'

/-- If some number of body applications falsifies the guard, the loop
terminates. -/
theorem whileRun_total {σ : Type _} (guard : σ → Prop) (body : σ → σ) :
    ∀ (n : ℕ) (s : σ), ¬ guard (body^[n] s) → ∃ s', WhileRun guard body s s' := by
  intro n
  induction n with
  | zero =>
    intro s h
    exact ⟨s, WhileRun.done h⟩
  | succ n ih =>
    intro s h
    by_cases hg : guard s
    · obtain ⟨s', hs'⟩ := ih (body s) (by
        rwa [Function.iterate_succ_apply] at h)
      exact ⟨s', WhileRun.step hg hs'⟩
    · exact ⟨s, WhileRun.done hg⟩

namespace ThermalConv

/-!
## Thermal convection notebook (`src/unnamed/part_001`)

Model parameters, from the notebook's second code cell:
```python
boxHeight = 1.0
boxLength = 2.0
res = 16
tempMin = 0.0
tempMax = 1.0
```
-/

def boxHeight : ℝ := 1.0
def boxLength : ℝ := 2.0
def res : ℕ := 16
def tempMin : ℝ := 0.0
def tempMax : ℝ := 1.0

/-!
### The time-stepping loop

```python
def update():
    dt = advDiff.get_max_dt()
    advDiff.integrate(dt)
    return time+dt, step+1

time = 0.
step = 0
steps_end = 20
while step < steps_end:
    solver.solve()
    time, step = update()
```

`get_max_dt()` is an external library call; its return values are
modelled by a stream `dts : ℕ → ℝ`, where `dts i` is the value returned
during the iteration in which `step = i` (each iteration calls
`get_max_dt` exactly once, inside `update`).
-/

/-- Events of one loop iteration: the `solver.solve()` call, then the
`update()` call (whose argument records the value of `step` at call time). -/
inductive ConvEvent
  | solveCall : ConvEvent
  | updateCall : ℕ → ConvEvent
  deriving DecidableEq, Repr

/-- The body of `update()`: returns `(time + dt, step + 1)` where
`dt = dts step` is the timestep the advection-diffusion system reports. -/
def update (dts : ℕ → ℝ) (time : ℝ) (step : ℕ) : ℝ × ℕ :=
  (time + dts step, step + 1)

/-- The `while step < steps_end` loop.  Returns the final `time`, the
final `step`, and the trace of calls made, in order. -/
def convRun (dts : ℕ → ℝ) (time : ℝ) (step : ℕ) (steps_end : ℕ) :
    ℝ × ℕ × List ConvEvent :=
  if _h : step < steps_end then
    let next := update dts time step
    let rest := convRun dts next.1 next.2 steps_end
    (rest.1, rest.2.1, ConvEvent.solveCall :: ConvEvent.updateCall step :: rest.2.2)
  else
    (time, step, [])
termination_by steps_end - step
decreasing_by
  simp only [update]
  omega

/-- The expected full trace for `k` iterations starting at `step`:
each iteration is a `solver.solve()` call followed by an `update()` call. -/
def convTrace (step : ℕ) : ℕ → List ConvEvent
  | 0 => []
  | k + 1 => ConvEvent.solveCall :: ConvEvent.updateCall step :: convTrace (step + 1) k

theorem convRun_eq (dts : ℕ → ℝ) :
    ∀ (k : ℕ) (time : ℝ) (step : ℕ),
      convRun dts time step (step + k) =
        (time + ∑ i ∈ Finset.range k, dts (step + i), step + k, convTrace step k) := by
  intro k
  induction k with
  | zero =>
    intro time step
    rw [convRun]
    simp [convTrace]
  | succ k ih =>
    intro time step
    rw [convRun]
    have hlt : step < step + (k + 1) := by omega
    rw [dif_pos hlt]
    have harg : step + (k + 1) = (step + 1) + k := by omega
    simp only [update, harg, ih (time + dts step) (step + 1)]
    refine congrArg₂ Prod.mk ?_ (congrArg₂ Prod.mk (by omega) rfl)
    rw [Finset.sum_range_succ']
    have hsum : ∑ i ∈ Finset.range k, dts (step + (i + 1)) =
        ∑ i ∈ Finset.range k, dts (step + 1 + i) :=
      Finset.sum_congr rfl fun i _ => by rw [show step + (i + 1) = step + 1 + i by omega]
    rw [hsum, show step + 0 = step from rfl]
    ring

theorem convTrace_count_solve :
    ∀ (k step : ℕ), (convTrace step k).count ConvEvent.solveCall = k := by
  intro k
  induction k with
  | zero => intro step; rfl
  | succ k ih =>
    intro step
    simp [convTrace, List.count_cons, ih (step + 1)]

/-- **C1.** Starting from `time = 0.0`, `step = 0`, `steps_end = 20`, the
thermal convection time-stepping loop terminates (it is a total function)
with `step = 20` and `time` equal to the sum of the 20 timesteps returned
by `advDiff.get_max_dt()`; its trace consists of exactly 20 iterations,
each a `solver.solve()` call followed by an `update()` call, and
`update()` adds the iteration's `dt` to `time` and 1 to `step`. -/
theorem c1_thermal_convection_time_stepping (dts : ℕ → ℝ) :
    convRun dts 0 0 20 = (∑ i ∈ Finset.range 20, dts i, 20, convTrace 0 20) ∧
    (convTrace 0 20).count ConvEvent.solveCall = 20 ∧
    ∀ (time : ℝ) (step : ℕ), update dts time step = (time + dts step, step + 1) := by
  refine ⟨?_, convTrace_count_solve 20 0, fun _ _ => rfl⟩
  have h := convRun_eq dts 20 0 0
  simpa using h

/-!
### C7: order of library calls in the thermal convection notebook

The notebook's top-level statements, in source order.  Each constructor
names one construction step of the script (statements irrelevant to the
ordering claim, such as plotting cells, are represented too where they
sit between the listed steps, but carry no obligations).
-/

/-- The top-level construction steps of the thermal convection notebook,
in the order they appear in the source. -/
inductive ConvStep
  | meshDecl                 -- `mesh = uw.mesh.FeMesh_Cartesian(...)`
  | velocityFieldDecl        -- `velocityField = mesh.add_variable(nodeDofCount=2)`
  | pressureFieldDecl        -- `pressureField = mesh.subMesh.add_variable(...)`
  | temperatureFieldDecl     -- `temperatureField = mesh.add_variable(...)`
  | temperatureDotFieldDecl  -- `temperatureDotField = mesh.add_variable(...)`
  | initAssignments          -- `velocityField.data[:] = [0.,0.]` etc.
  | tempInitLoop             -- `for index, coord in enumerate(mesh.data): ...`
  | wallSetsDecl             -- `bottomWall = mesh.specialSets[...]` etc.
  | wallAssignments          -- `for index in bottomWall: ...` etc.
  | velBCDecl                -- `velBC = uw.conditions.DirichletCondition(...)`
  | tempBCDecl               -- `tempBC = uw.conditions.DirichletCondition(...)`
  | stokesDecl               -- `stokes = uw.systems.Stokes(...)`
  | solverDecl               -- `solver = uw.systems.Solver(stokes)`
  | advDiffDecl              -- `advDiff = uw.systems.AdvectionDiffusion(...)`
  | timeLoop                 -- `while step < steps_end: ...`
  deriving DecidableEq, Repr

open ConvStep in
/-- The notebook's statements in source order. -/
def convNotebookOrder : List ConvStep :=
  [meshDecl, velocityFieldDecl, pressureFieldDecl, temperatureFieldDecl,
   temperatureDotFieldDecl, initAssignments, tempInitLoop, wallSetsDecl,
   wallAssignments, velBCDecl, tempBCDecl, stokesDecl, solverDecl,
   advDiffDecl, timeLoop]

/-- Position of a construction step in the notebook. -/
def stepPos (s : ConvStep) : ℕ := convNotebookOrder.indexOf s

open ConvStep in
/-- **C7.** In the thermal convection notebook, the mesh and the mesh
variables are constructed before the boundary-condition objects that
reference them (`velBC` references `velocityField` and the wall sets;
`tempBC` references `temperatureField`); each `DirichletCondition` is
constructed before the system that consumes it (`velBC` before `stokes`,
`tempBC` before `advDiff`); and the two systems and the solver all exist
before the time-stepping loop begins. -/
theorem c7_thermal_convection_call_order :
    stepPos meshDecl < stepPos velBCDecl ∧
    stepPos velocityFieldDecl < stepPos velBCDecl ∧
    stepPos wallSetsDecl < stepPos velBCDecl ∧
    stepPos meshDecl < stepPos tempBCDecl ∧
    stepPos temperatureFieldDecl < stepPos tempBCDecl ∧
    stepPos meshDecl < stepPos velocityFieldDecl ∧
    stepPos meshDecl < stepPos pressureFieldDecl ∧
    stepPos meshDecl < stepPos temperatureFieldDecl ∧
    stepPos meshDecl < stepPos temperatureDotFieldDecl ∧
    stepPos velBCDecl < stepPos stokesDecl ∧
    stepPos tempBCDecl < stepPos advDiffDecl ∧
    stepPos stokesDecl < stepPos timeLoop ∧
    stepPos solverDecl < stepPos timeLoop ∧
    stepPos advDiffDecl < stepPos timeLoop := by
  decide

/-!
### C8: the temperature initialisation keeps every node in `[0, 1]`

```python
pertStrength = 0.2
deltaTemp = tempMax - tempMin
for index, coord in enumerate(mesh.data):
    pertCoeff = math.cos( math.pi * coord[0] ) * math.sin( math.pi * coord[1] )
    temperatureField.data[index] = tempMin + deltaTemp*(boxHeight - coord[1]) + pertStrength * pertCoeff
    temperatureField.data[index] = max(tempMin, min(tempMax, temperatureField.data[index]))

for index in bottomWall:
    temperatureField.data[index] = tempMax
for index in topWall:
    temperatureField.data[index] = tempMin
```

The mesh is `FeMesh_Cartesian` with `elementRes = (32, 16)` over
`[0, 2] × [0, 1]`, so its Q1 node grid is 33 × 17 with uniform spacing.
`bottomWall` is the `MinJ` vertex set (`y`-index 0) and `topWall` the
`MaxJ` vertex set (`y`-index 16).
-/

/-- A node of the 33 × 17 Q1 node grid. -/
def TcNode := Fin 33 × Fin 17
  deriving DecidableEq

noncomputable def nodeX (n : TcNode) : ℝ := boxLength * n.1 / 32

noncomputable def nodeY (n : TcNode) : ℝ := boxHeight * n.2 / 16

def pertStrength : ℝ := 0.2

def deltaTemp : ℝ := tempMax - tempMin

noncomputable def pertCoeff (n : TcNode) : ℝ :=
  Real.cos (Real.pi * nodeX n) * Real.sin (Real.pi * nodeY n)

/-- The unclamped value assigned first in the loop body. -/
noncomputable def tempRaw (n : TcNode) : ℝ :=
  tempMin + deltaTemp * (boxHeight - nodeY n) + pertStrength * pertCoeff n

/-- The value after the second assignment of the loop body,
`max(tempMin, min(tempMax, ·))` of the raw value. -/
noncomputable def tempInitField (n : TcNode) : ℝ :=
  max tempMin (min tempMax (tempRaw n))

/-- After `for index in bottomWall: temperatureField.data[index] = tempMax`. -/
noncomputable def tempAfterBottomWall (n : TcNode) : ℝ :=
  if n.2 = (0 : Fin 17) then tempMax else tempInitField n

/-- After `for index in topWall: temperatureField.data[index] = tempMin`. -/
noncomputable def tempAfterWalls (n : TcNode) : ℝ :=
  if n.2 = (16 : Fin 17) then tempMin else tempAfterBottomWall n

/-- **C8.** After the initialisation loop every node's temperature lies in
`[tempMin, tempMax] = [0, 1]` (each assignment is clamped), and the
subsequent bottom-wall (`tempMax`) and top-wall (`tempMin`) assignments
preserve the invariant at every node. -/
theorem c8_thermal_convection_temperature_clamped :
    tempMin = 0 ∧ tempMax = 1 ∧
    (∀ n : TcNode, 0 ≤ tempInitField n ∧ tempInitField n ≤ 1) ∧
    (∀ n : TcNode, 0 ≤ tempAfterWalls n ∧ tempAfterWalls n ≤ 1) := by
  have hmin : tempMin = 0 := by norm_num [tempMin]
  have hmax : tempMax = 1 := by norm_num [tempMax]
  have hinit : ∀ n : TcNode, 0 ≤ tempInitField n ∧ tempInitField n ≤ 1 := by
    intro n
    unfold tempInitField
    rw [hmin, hmax]
    constructor
    · exact le_max_left 0 _
    · exact max_le (by norm_num) (min_le_left 1 _)
  refine ⟨hmin, hmax, hinit, ?_⟩
  intro n
  unfold tempAfterWalls tempAfterBottomWall
  rw [hmin, hmax]
  split
  · norm_num
  · split
    · norm_num
    · simpa using hinit n

end ThermalConv

namespace SSHeat

/-!
## Steady-state heat notebook (`src/Notebooks/Underworld/01_Steady_State_Heat.ipynb`)

```python
boxHeight = 1.0
boxLength = 2.0
resx = 16
resy = 8
mesh = uw.mesh.FeMesh_Cartesian(elementType=("Q1/dQ0"), elementRes=(resx, resy), ...)

temperatureField = mesh.add_variable( nodeDofCount=1 )
temperatureField.data[:] = 0.

botWalls = mesh.specialSets["Bottom_VertexSet"]
topWalls = mesh.specialSets[   "Top_VertexSet"]
bcWalls = botWalls + topWalls
tempBC = uw.conditions.DirichletCondition( variable=temperatureField, indexSetsPerDof=(bcWalls,) )

temperatureField.data[botWalls] = 1.0
temperatureField.data[topWalls] = 0.0

heatequation = uw.systems.SteadyStateHeat(temperatureField = temperatureField,
                                            fn_diffusivity = 1.0,
                                                conditions = tempBC)
heatsolver = uw.systems.Solver(heatequation)
heatsolver.solve()
```

The `Q1` node grid of a 16 × 8 element Cartesian mesh is 17 × 9; the
bottom wall is the set of nodes with vertical index 0 and the top wall
the set with vertical index 8.  All assigned values are exact, so the
field is modelled over `ℚ`.
-/

def boxHeight : ℝ := 1.0
def boxLength : ℝ := 2.0
def resx : ℕ := 16
def resy : ℕ := 8

/-- A node of the 17 × 9 Q1 node grid. -/
def HeatNode := Fin 17 × Fin 9
  deriving DecidableEq

/-- `botWalls = mesh.specialSets["Bottom_VertexSet"]`. -/
def botWalls (n : HeatNode) : Prop := n.2 = (0 : Fin 9)

/-- `topWalls = mesh.specialSets["Top_VertexSet"]`. -/
def topWalls (n : HeatNode) : Prop := n.2 = (8 : Fin 9)

instance (n : HeatNode) : Decidable (botWalls n) := by unfold botWalls; infer_instance

instance (n : HeatNode) : Decidable (topWalls n) := by unfold topWalls; infer_instance

/-- `bcWalls = botWalls + topWalls` (union of index sets). -/
def bcWalls (n : HeatNode) : Prop := botWalls n ∨ topWalls n

/-- `temperatureField.data[:] = 0.` -/
def temperatureField0 : HeatNode → ℚ := fun _ => 0

/-- After `temperatureField.data[botWalls] = 1.0`. -/
def temperatureFieldAfterBot : HeatNode → ℚ := fun n =>
  if n.2 = (0 : Fin 9) then 1 else temperatureField0 n

/-- After `temperatureField.data[topWalls] = 0.0`: the temperature field
as it stands just before `heatsolver.solve()`. -/
def temperatureFieldBeforeSolve : HeatNode → ℚ := fun n =>
  if n.2 = (8 : Fin 9) then 0 else temperatureFieldAfterBot n

/-- The arguments the notebook passes to `uw.systems.SteadyStateHeat`. -/
structure SteadyStateHeat where
  temperatureField : HeatNode → ℚ
  fn_diffusivity : ℚ
  conditions : HeatNode → Prop

/-- `heatequation = uw.systems.SteadyStateHeat(temperatureField=...,
fn_diffusivity=1.0, conditions=tempBC)` where `tempBC` holds the index
set `bcWalls`. -/
def heatequation : SteadyStateHeat :=
  { temperatureField := temperatureFieldBeforeSolve
    fn_diffusivity := 1.0
    conditions := bcWalls }

/-- **C2.** Just before the single `heatsolver.solve()` call the
temperature field is fully determined: `1.0` on every bottom-wall node,
`0.0` on every top-wall node, `0.0` on every other node; and the
`SteadyStateHeat` system is constructed with exactly this field,
diffusivity `1.0`, and the Dirichlet condition over the union of the
top and bottom walls. -/
theorem c2_steady_state_heat_field_before_solve :
    (∀ n : HeatNode, botWalls n → heatequation.temperatureField n = 1) ∧
    (∀ n : HeatNode, topWalls n → heatequation.temperatureField n = 0) ∧
    (∀ n : HeatNode, ¬ botWalls n → ¬ topWalls n → heatequation.temperatureField n = 0) ∧
    heatequation.temperatureField = temperatureFieldBeforeSolve ∧
    heatequation.fn_diffusivity = 1 ∧
    (∀ n : HeatNode, heatequation.conditions n ↔ botWalls n ∨ topWalls n) := by
  refine ⟨?_, ?_, ?_, rfl, by norm_num [heatequation], fun n => Iff.rfl⟩
  · intro n h
    rw [botWalls] at h
    have h8 : ¬ (n.2 = (8 : Fin 9)) := by rw [h]; decide
    simp [heatequation, temperatureFieldBeforeSolve, temperatureFieldAfterBot, h, h8]
  · intro n h
    rw [topWalls] at h
    simp [heatequation, temperatureFieldBeforeSolve, h]
  · intro n hb ht
    rw [botWalls] at hb
    rw [topWalls] at ht
    simp [heatequation, temperatureFieldBeforeSolve, temperatureFieldAfterBot,
      temperatureField0, hb, ht]

/-- Concrete instances of C2: the node `(0, 0)` is a bottom-wall node and
holds `1`, the node `(0, 8)` is a top-wall node and holds `0`, and the
interior node `(0, 4)` holds `0`. -/
theorem c2_steady_state_heat_field_witness :
    heatequation.temperatureField ((0 : Fin 17), (0 : Fin 9)) = 1 ∧
    heatequation.temperatureField ((0 : Fin 17), (8 : Fin 9)) = 0 ∧
    heatequation.temperatureField ((0 : Fin 17), (4 : Fin 9)) = 0 :=
  ⟨c2_steady_state_heat_field_before_solve.1 _ (by decide),
   c2_steady_state_heat_field_before_solve.2.1 _ (by decide),
   c2_steady_state_heat_field_before_solve.2.2.1 _ (by decide) (by decide)⟩

end SSHeat

namespace RTaylor

/-!
## Rayleigh-Taylor notebook (`src/Notebooks/Underworld/05_Rayleigh_Taylor.ipynb`)

```python
boxLength      = 0.9142
boxHeight      = 1.0
model_end_time = 3.

denseIndex = 0
lightIndex = 1
wavelength = 2.0*boxLength
amplitude  = 0.02
offset     = 0.2
k = 2. * math.pi / wavelength

coord = fn.coord()
perturbationFn = offset + amplitude*fn.math.cos( k*coord[0] )
conditions = [ ( perturbationFn > coord[1] , lightIndex ),
               (                      True , denseIndex ) ]
materialIndex.data[:] = fn.branching.conditional( conditions ).evaluate(swarm)
```

`fn.branching.conditional` evaluates the first condition that holds, per
particle; a particle is a coordinate pair `(x, y)`.
-/

def boxLength : ℝ := 0.9142
def boxHeight : ℝ := 1.0
def model_end_time : ℝ := 3

def denseIndex : ℤ := 0
def lightIndex : ℤ := 1
def wavelength : ℝ := 2.0 * boxLength
def amplitude : ℝ := 0.02
def offset : ℝ := 0.2

noncomputable def k : ℝ := 2 * Real.pi / wavelength

/-- `perturbationFn = offset + amplitude*fn.math.cos( k*coord[0] )`. -/
noncomputable def perturbationFn (x : ℝ) : ℝ := offset + amplitude * Real.cos (k * x)

open Classical in
/-- The branching conditional evaluated on one particle `p = (x, y)`:
`lightIndex` where `perturbationFn > coord[1]`, else `denseIndex`. -/
noncomputable def materialIndexOf (p : ℝ × ℝ) : ℤ :=
  if perturbationFn p.1 > p.2 then lightIndex else denseIndex

/-- **C4.** After the branching conditional is evaluated over the swarm,
a particle's material index is `lightIndex = 1` exactly when
`offset + amplitude * cos(k * x)` with `k = 2π/wavelength` is strictly
greater than its `y`-coordinate, and `denseIndex = 0` otherwise; in
particular every particle's index is `0` or `1`. -/
theorem c4_rayleigh_taylor_material_index (p : ℝ × ℝ) :
    (materialIndexOf p = lightIndex ↔
      offset + amplitude * Real.cos (2 * Real.pi / wavelength * p.1) > p.2) ∧
    (materialIndexOf p = denseIndex ↔
      ¬ (offset + amplitude * Real.cos (2 * Real.pi / wavelength * p.1) > p.2)) ∧
    (materialIndexOf p = 0 ∨ materialIndexOf p = 1) := by
  have hfn : perturbationFn p.1 =
      offset + amplitude * Real.cos (2 * Real.pi / wavelength * p.1) := by
    rw [perturbationFn, k]
  by_cases h : perturbationFn p.1 > p.2
  · rw [hfn] at h
    simp [materialIndexOf, hfn, h, lightIndex, denseIndex]
  · rw [hfn] at h
    simp [materialIndexOf, hfn, h, lightIndex, denseIndex]

/-!
### C5: the time-stepping loop

```python
def update():
    dt = advector.get_max_dt()
    advector.integrate(dt)
    return time+dt, step+1

time = 0.
step = 0
while time < model_end_time:
    solver.solve()
    ...
    time, step = update()
```

As in the thermal convection model, the values returned by successive
`get_max_dt()` calls form a stream `dts : ℕ → ℝ`, indexed by the value
of `step` during the call.
-/

/-- One execution of the loop body, as far as `time` and `step` are
concerned: `update()` returns `(time + dt, step + 1)`. -/
def rtBody (dts : ℕ → ℝ) (s : ℝ × ℕ) : ℝ × ℕ := (s.1 + dts s.2, s.2 + 1)

/-- The state (`time`, `step`) after `n` executions of the loop body,
starting from `time = 0.`, `step = 0`. -/
def rtIterate (dts : ℕ → ℝ) (n : ℕ) : ℝ × ℕ := (rtBody dts)^[n] ((0 : ℝ), (0 : ℕ))

theorem rtIterate_eq (dts : ℕ → ℝ) (n : ℕ) :
    rtIterate dts n = (∑ i ∈ Finset.range n, dts i, n) := by
  induction n with
  | zero => simp [rtIterate]
  | succ n ih =>
    rw [rtIterate, Function.iterate_succ_apply', ← rtIterate, ih, rtBody,
      Finset.sum_range_succ]

/-- **C5.** If every value returned by `advector.get_max_dt()` is at
least some `ε > 0`, the `while time < model_end_time` loop terminates;
in every iteration `time` increases by exactly the `dt` returned in that
iteration (hence strictly increases) and `step` increases by exactly 1. -/
theorem c5_rayleigh_taylor_loop_terminates (dts : ℕ → ℝ)
    (h : ∃ ε, 0 < ε ∧ ∀ i, ε ≤ dts i) :
    (∃ s', WhileRun (fun s : ℝ × ℕ => s.1 < model_end_time) (rtBody dts)
      ((0 : ℝ), (0 : ℕ)) s') ∧
    (∀ n, rtIterate dts (n + 1) =
      ((rtIterate dts n).1 + dts n, (rtIterate dts n).2 + 1)) ∧
    (∀ n, (rtIterate dts n).1 < (rtIterate dts (n + 1)).1) := by
  obtain ⟨ε, hε, hdts⟩ := h
  have hsum : ∀ n : ℕ, (n : ℝ) * ε ≤ ∑ i ∈ Finset.range n, dts i := by
    intro n
    calc (n : ℝ) * ε = ∑ _i ∈ Finset.range n, ε := by
          rw [Finset.sum_const, Finset.card_range, nsmul_eq_mul]
      _ ≤ ∑ i ∈ Finset.range n, dts i := Finset.sum_le_sum fun i _ => hdts i
  have hstep : ∀ n, rtIterate dts (n + 1) =
      ((rtIterate dts n).1 + dts n, (rtIterate dts n).2 + 1) := by
    intro n
    simp only [rtIterate_eq, Finset.sum_range_succ]
  refine ⟨?_, hstep, ?_⟩
  · obtain ⟨n, hn⟩ := exists_nat_ge (model_end_time / ε)
    refine whileRun_total _ _ n _ ?_
    have hiter : (rtBody dts)^[n] ((0 : ℝ), (0 : ℕ)) = rtIterate dts n := rfl
    rw [hiter, rtIterate_eq]
    simp only [not_lt]
    calc model_end_time = model_end_time / ε * ε := by field_simp
      _ ≤ (n : ℝ) * ε := by
          exact mul_le_mul_of_nonneg_right hn hε.le
      _ ≤ ∑ i ∈ Finset.range n, dts i := hsum n
  · intro n
    rw [hstep n]
    have : 0 < dts n := lt_of_lt_of_le hε (hdts n)
    simpa using this

/-- Concrete instance of C5: with every `get_max_dt()` call returning 1,
the loop terminates and time/step advance as stated. -/
theorem c5_rayleigh_taylor_loop_witness :
    (∃ s', WhileRun (fun s : ℝ × ℕ => s.1 < model_end_time)
      (rtBody fun _ => (1 : ℝ)) ((0 : ℝ), (0 : ℕ)) s') ∧
    (∀ n, rtIterate (fun _ => (1 : ℝ)) (n + 1) =
      ((rtIterate (fun _ => (1 : ℝ)) n).1 + 1,
       (rtIterate (fun _ => (1 : ℝ)) n).2 + 1)) ∧
    (∀ n, (rtIterate (fun _ => (1 : ℝ)) n).1 <
      (rtIterate (fun _ => (1 : ℝ)) (n + 1)).1) :=
  c5_rayleigh_taylor_loop_terminates (fun _ => (1 : ℝ))
    ⟨1, one_pos, fun _ => le_refl 1⟩

end RTaylor

namespace Uplift

/-!
## Uplift notebook (`src/Notebooks/Underworld/08_Uplift_TractionBCs.ipynb`)

```python
resolution = (100,60)
gravity   = non_dimensionalise( 9.81 * u.meter / u.second**2)
density   = non_dimensionalise( 3300 * u.kilogram / u.meter**3)
Lx        = non_dimensionalise( 100e3 * u.meter)
Ly        = non_dimensionalise( 60e3 * u.meter)
xp        = non_dimensionalise( 50e3 * u.meter)
width     = non_dimensionalise( 3e3  * u.meter)
lithostaticPressure = 0.6*Ly*density*gravity

for ii in bottomWall:
    coord = mesh.data[ii]
    tractionField.data[ii] = [0.0,lithostaticPressure*(1.+0.2*np.exp((-1/width*(coord[0]-xp)**2)))]
```

`non_dimensionalise` is an external library call (division by a
positive reference scale), so the scaled model parameters are abstract
reals, positive because the physical inputs and scales are.  The mesh is
`FeMesh_Cartesian` with `elementRes = (100, 60)`, so the Q1 node grid is
101 × 61 with uniform spacing; `bottomWall` is the set of nodes with
vertical index 0, and the `x`-coordinate of node `(i, j)` is
`i * Lx / 100`.  `tractionField` is created by `mesh.add_variable` and
is not written anywhere else before the loop, so its prior contents `t0`
are arbitrary.
-/

/-- The non-dimensionalised model parameters of the uplift notebook. -/
structure Params where
  gravity : ℝ
  density : ℝ
  Lx : ℝ
  Ly : ℝ
  xp : ℝ
  width : ℝ

/-- `lithostaticPressure = 0.6*Ly*density*gravity`. -/
def lithostaticPressure (p : Params) : ℝ := 0.6 * p.Ly * p.density * p.gravity

/-- A node of the 101 × 61 Q1 node grid. -/
def UpNode := Fin 101 × Fin 61
  deriving DecidableEq

/-- The `x`-coordinate of a node. -/
noncomputable def upNodeX (p : Params) (n : UpNode) : ℝ := p.Lx * n.1 / 100

/-- `bottomWall = mesh.specialSets["Bottom_VertexSet"]`. -/
def bottomWall (n : UpNode) : Prop := n.2 = (0 : Fin 61)

instance (n : UpNode) : Decidable (bottomWall n) := by unfold bottomWall; infer_instance

/-- The traction field after the initialisation loop, given its prior
contents `t0`.  On the bottom wall the loop writes
`[0.0, lithostaticPressure*(1.+0.2*np.exp((-1/width*(coord[0]-xp)**2)))]`;
every other node keeps its prior value. -/
noncomputable def tractionAfterLoop (p : Params) (t0 : UpNode → ℝ × ℝ) (n : UpNode) :
    ℝ × ℝ :=
  if n.2 = (0 : Fin 61) then
    (0, lithostaticPressure p *
      (1 + 0.2 * Real.exp (-1 / p.width * (upNodeX p n - p.xp) ^ 2)))
  else t0 n

/-- **C3.** After the traction-initialisation loop, every bottom-wall
node has traction `x`-component `0.0` and `y`-component
`lithostaticPressure * (1 + 0.2 * exp(-(x - xp)^2 / width))`; hence the
`y`-component lies strictly above `lithostaticPressure` and at most
`1.2 * lithostaticPressure`; nodes off the bottom wall are unchanged. -/
theorem c3_uplift_traction_field (p : Params) (t0 : UpNode → ℝ × ℝ) (n : UpNode)
    (hg : 0 < p.gravity) (hd : 0 < p.density) (hLy : 0 < p.Ly) (hw : 0 < p.width) :
    (bottomWall n →
      (tractionAfterLoop p t0 n).1 = 0 ∧
      (tractionAfterLoop p t0 n).2 = lithostaticPressure p *
        (1 + 0.2 * Real.exp (-(upNodeX p n - p.xp) ^ 2 / p.width)) ∧
      lithostaticPressure p < (tractionAfterLoop p t0 n).2 ∧
      (tractionAfterLoop p t0 n).2 ≤ 1.2 * lithostaticPressure p) ∧
    (¬ bottomWall n → tractionAfterLoop p t0 n = t0 n) := by
  have hlith : 0 < lithostaticPressure p := by
    rw [lithostaticPressure]
    exact mul_pos (mul_pos (mul_pos (by norm_num) hLy) hd) hg
  have hexp_arg : -1 / p.width * (upNodeX p n - p.xp) ^ 2 =
      -(upNodeX p n - p.xp) ^ 2 / p.width := by ring
  have hxle : -(upNodeX p n - p.xp) ^ 2 / p.width ≤ 0 := by
    apply div_nonpos_of_nonpos_of_nonneg
    · simpa using sq_nonneg (upNodeX p n - p.xp)
    · exact hw.le
  have hE_pos : 0 < Real.exp (-(upNodeX p n - p.xp) ^ 2 / p.width) := Real.exp_pos _
  have hE_le : Real.exp (-(upNodeX p n - p.xp) ^ 2 / p.width) ≤ 1 := by
    rw [show (1 : ℝ) = Real.exp 0 from (Real.exp_zero).symm]
    exact Real.exp_le_exp.mpr hxle
  constructor
  · intro hb
    rw [bottomWall] at hb
    have hval : tractionAfterLoop p t0 n =
        (0, lithostaticPressure p *
          (1 + 0.2 * Real.exp (-(upNodeX p n - p.xp) ^ 2 / p.width))) := by
      rw [tractionAfterLoop, if_pos hb, hexp_arg]
    rw [hval]
    refine ⟨rfl, rfl, ?_, ?_⟩
    · nlinarith
    · nlinarith
  · intro hb
    rw [bottomWall] at hb
    rw [tractionAfterLoop, if_neg hb]

/-- Concrete instance of C3 at unit parameters, the bottom-wall corner
node `(0, 0)` (and, for the unchanged part, the node `(0, 1)` off the
bottom wall, with prior contents everywhere `(5, 5)`). -/
theorem c3_uplift_traction_field_witness :
    ((bottomWall ((0 : Fin 101), (0 : Fin 61)) →
      (tractionAfterLoop ⟨1, 1, 1, 1, 1, 1⟩ (fun _ => ((5 : ℝ), (5 : ℝ)))
        ((0 : Fin 101), (0 : Fin 61))).1 = 0 ∧
      (tractionAfterLoop ⟨1, 1, 1, 1, 1, 1⟩ (fun _ => ((5 : ℝ), (5 : ℝ)))
        ((0 : Fin 101), (0 : Fin 61))).2 = lithostaticPressure ⟨1, 1, 1, 1, 1, 1⟩ *
        (1 + 0.2 * Real.exp (-(upNodeX ⟨1, 1, 1, 1, 1, 1⟩ ((0 : Fin 101), (0 : Fin 61)) - 1) ^ 2 / 1)) ∧
      lithostaticPressure ⟨1, 1, 1, 1, 1, 1⟩ <
        (tractionAfterLoop ⟨1, 1, 1, 1, 1, 1⟩ (fun _ => ((5 : ℝ), (5 : ℝ)))
          ((0 : Fin 101), (0 : Fin 61))).2 ∧
      (tractionAfterLoop ⟨1, 1, 1, 1, 1, 1⟩ (fun _ => ((5 : ℝ), (5 : ℝ)))
        ((0 : Fin 101), (0 : Fin 61))).2 ≤ 1.2 * lithostaticPressure ⟨1, 1, 1, 1, 1, 1⟩) ∧
    (¬ bottomWall ((0 : Fin 101), (0 : Fin 61)) →
      tractionAfterLoop ⟨1, 1, 1, 1, 1, 1⟩ (fun _ => ((5 : ℝ), (5 : ℝ)))
        ((0 : Fin 101), (0 : Fin 61)) = ((5 : ℝ), (5 : ℝ)))) :=
  c3_uplift_traction_field ⟨1, 1, 1, 1, 1, 1⟩ (fun _ => ((5 : ℝ), (5 : ℝ)))
    ((0 : Fin 101), (0 : Fin 61)) (by norm_num) (by norm_num) (by norm_num) (by norm_num)

/-!
### C9: the timestep is fixed in the first loop iteration

```python
dt    = -1.
steps = 0
while steps<model_end_step:
    solver.solve()
    if dt < 0:
        dt = advector.get_max_dt()
    ...
    advector.integrate(dt)
    msAdvector.integrate(dt)
    ...
    steps += 1
```

with `model_end_step = 3`.  The stream `g : ℕ → ℝ` models successive
`advector.get_max_dt()` calls: the `c`-th call returns `g c`.
-/

def model_end_step : ℕ := 3

/-- Loop state: the current `dt`, the number of `get_max_dt()` calls so
far, and, per completed iteration, the pair of timestep values passed to
`advector.integrate` and `msAdvector.integrate`. -/
structure LoopState where
  dt : ℝ
  calls : ℕ
  used : List (ℝ × ℝ)

open Classical in
/-- One iteration of the uplift loop: reassign `dt` from `get_max_dt()`
only when `dt < 0`, then advect both swarms with the current `dt`. -/
noncomputable def upliftIter (g : ℕ → ℝ) (s : LoopState) : LoopState :=
  if s.dt < 0 then
    ⟨g s.calls, s.calls + 1, s.used ++ [(g s.calls, g s.calls)]⟩
  else
    ⟨s.dt, s.calls, s.used ++ [(s.dt, s.dt)]⟩

/-- The loop runs `model_end_step = 3` iterations from `dt = -1.`,
no calls made, nothing advected yet. -/
noncomputable def upliftRun (g : ℕ → ℝ) : LoopState :=
  (upliftIter g)^[model_end_step] ⟨-1, 0, []⟩

/-- **C9.** `dt` starts at `-1.0` and is reassigned from
`advector.get_max_dt()` only under the `dt < 0` guard; if the first call
returns a non-negative value, `dt` is set exactly once (one call in
total) and all 3 iterations advect both swarms with that same value. -/
theorem c9_uplift_dt_set_once (g : ℕ → ℝ) (h : 0 ≤ g 0) :
    upliftRun g = ⟨g 0, 1, [(g 0, g 0), (g 0, g 0), (g 0, g 0)]⟩ := by
  have hneg : ¬ (g 0 < 0) := not_lt.mpr h
  rw [upliftRun, model_end_step, show (3 : ℕ) = 0 + 1 + 1 + 1 from rfl]
  simp only [Function.iterate_succ_apply, Function.iterate_zero_apply]
  have e1 : upliftIter g ⟨-1, 0, []⟩ = ⟨g 0, 1, [(g 0, g 0)]⟩ := by
    rw [upliftIter, if_pos (show (-1 : ℝ) < 0 by norm_num)]
    simp
  rw [e1]
  have e2 : upliftIter g ⟨g 0, 1, [(g 0, g 0)]⟩ =
      ⟨g 0, 1, [(g 0, g 0), (g 0, g 0)]⟩ := by
    rw [upliftIter, if_neg hneg]
    simp
  rw [e2]
  rw [upliftIter, if_neg hneg]
  simp

/-- Concrete instance of C9: with `get_max_dt()` always returning 1, the
loop makes one call and uses timestep 1 for both swarms in all three
iterations. -/
theorem c9_uplift_dt_set_once_witness :
    upliftRun (fun _ => (1 : ℝ)) = ⟨1, 1, [(1, 1), (1, 1), (1, 1)]⟩ :=
  c9_uplift_dt_set_once (fun _ => (1 : ℝ)) zero_le_one

end Uplift

namespace FieldMods

/-!
## C6: how the field values change across the notebooks

Every write to the velocity, pressure or temperature fields across the
repository's code notebooks, in execution order.  A write records which
field it touches and which operation performs it: a `directAssign` is
the notebook itself assigning into the field's data array; the other
operations are external Underworld library calls (`Solver.solve`,
`AdvectionDiffusion.integrate`, `SwarmAdvector.integrate`,
`MeshVariable.load`).  The notebooks contain no finite-element assembly
or linear-solver routine of their own: every non-`directAssign` event
below is a call into the external library, and these are the only
events.

The repository stages five code notebooks: thermal convection
(`src/unnamed/part_001`), steady-state heat, Rayleigh-Taylor, the
Blankenbach benchmark (the second document of
`src/Notebooks/Underworld/05_Rayleigh_Taylor.ipynb`, listed in
`StartHere.ipynb` as `03_BlankenbachBenchmark.ipynb`), and uplift.
`StartHere.ipynb` itself holds markdown and one empty code cell and
writes no field.
-/

inductive FieldName
  | velocity
  | pressure
  | temperature
  | temperatureDot
  deriving DecidableEq, Repr

/-- The operation performing a write to a field. -/
inductive WriteOp
  | directAssign            -- `field.data[...] = ...` in the notebook itself
  | solveCall               -- `Solver.solve()`
  | advDiffIntegrateCall    -- `AdvectionDiffusion.integrate(dt)`
  | swarmIntegrateCall      -- `SwarmAdvector.integrate(dt)`
  | loadCall                -- `MeshVariable.load(filename)`
  deriving DecidableEq, Repr

/-- One write to a field. -/
structure FieldWrite where
  field : FieldName
  op : WriteOp
  deriving DecidableEq, Repr

/-- A direct assignment by notebook code. -/
def isDirect (e : FieldWrite) : Prop := e.op = WriteOp.directAssign

/-- One of the three library calls the claim enumerates:
`Solver.solve`, `AdvectionDiffusion.integrate`, `SwarmAdvector.integrate`. -/
def isClaimLib (e : FieldWrite) : Prop :=
  e.op = WriteOp.solveCall ∨ e.op = WriteOp.advDiffIntegrateCall ∨
  e.op = WriteOp.swarmIntegrateCall

/-- Any write not performed by a direct notebook assignment, i.e. any
external library call. -/
def isAnyLib (e : FieldWrite) : Prop := e.op ≠ WriteOp.directAssign

/-- A write allowed during the initialisation phase of the amended
claim: a direct assignment or a `MeshVariable.load` from file. -/
def isInitOk (e : FieldWrite) : Prop :=
  e.op = WriteOp.directAssign ∨ e.op = WriteOp.loadCall

/-- A library call of the amended claim's list: `Solver.solve`,
`AdvectionDiffusion.integrate`, `SwarmAdvector.integrate`, or
`MeshVariable.load`. -/
def isAmendedLib (e : FieldWrite) : Prop :=
  e.op = WriteOp.solveCall ∨ e.op = WriteOp.advDiffIntegrateCall ∨
  e.op = WriteOp.swarmIntegrateCall ∨ e.op = WriteOp.loadCall

instance : DecidablePred isDirect := fun e => by unfold isDirect; infer_instance

instance : DecidablePred isClaimLib := fun e => by unfold isClaimLib; infer_instance

instance : DecidablePred isAnyLib := fun e => by unfold isAnyLib; infer_instance

instance : DecidablePred isInitOk := fun e => by unfold isInitOk; infer_instance

instance : DecidablePred isAmendedLib := fun e => by unfold isAmendedLib; infer_instance

/-- The trace splits into an initial phase whose writes all satisfy `p`
followed by a phase whose writes all satisfy `q`. -/
def splitOk (p q : FieldWrite → Prop) (l : List FieldWrite) : Prop :=
  ∃ a b, l = a ++ b ∧ (∀ e ∈ a, p e) ∧ (∀ e ∈ b, q e)

/-- Executable check for `splitOk`: consume the longest `p`-prefix, then
require `q` of everything left. -/
def splitOkB (p q : FieldWrite → Bool) : List FieldWrite → Bool
  | [] => true
  | e :: rest => if p e then splitOkB p q rest else (e :: rest).all q

theorem splitOkB_of_all {p q : FieldWrite → Bool} :
    ∀ {l : List FieldWrite}, (∀ e ∈ l, q e = true) → splitOkB p q l = true := by
  intro l
  induction l with
  | nil => intro _; rfl
  | cons e rest ih =>
    intro h
    rw [splitOkB]
    split
    · exact ih fun x hx => h x (List.mem_cons_of_mem e hx)
    · exact List.all_eq_true.mpr h

theorem splitOk_iff (p q : FieldWrite → Prop) [DecidablePred p] [DecidablePred q]
    (l : List FieldWrite) :
    splitOk p q l ↔
      splitOkB (fun e => decide (p e)) (fun e => decide (q e)) l = true := by
  constructor
  · rintro ⟨a, b, rfl, ha, hb⟩
    induction a with
    | nil =>
      simp only [List.nil_append]
      exact splitOkB_of_all fun e he => decide_eq_true (hb e he)
    | cons e a ih =>
      rw [List.cons_append, splitOkB, if_pos (decide_eq_true (ha e (List.mem_cons_self e a)))]
      exact ih fun x hx => ha x (List.mem_cons_of_mem e hx)
  · intro h
    induction l with
    | nil => exact ⟨[], [], rfl, by simp, by simp⟩
    | cons e rest ih =>
      rw [splitOkB] at h
      by_cases hp : p e
      · rw [if_pos (decide_eq_true hp)] at h
        obtain ⟨a, b, heq, ha, hb⟩ := ih h
        exact ⟨e :: a, b, by rw [List.cons_append, heq], fun x hx =>
          (List.mem_cons.mp hx).elim (fun hxe => hxe ▸ hp) (ha x), hb⟩
      · rw [if_neg fun hd => hp (of_decide_eq_true hd)] at h
        exact ⟨[], e :: rest, rfl, by simp, fun x hx =>
          of_decide_eq_true (List.all_eq_true.mp h x hx)⟩

/-- The loop body's writes, repeated once per iteration. -/
def repeatBody (body : List FieldWrite) : ℕ → List FieldWrite
  | 0 => []
  | n + 1 => body ++ repeatBody body n

theorem mem_repeatBody {body : List FieldWrite} {e : FieldWrite} :
    ∀ {n : ℕ}, e ∈ repeatBody body n → e ∈ body := by
  intro n
  induction n with
  | zero => intro h; simp [repeatBody] at h
  | succ n ih =>
    intro h
    rw [repeatBody, List.mem_append] at h
    exact h.elim id ih

theorem splitOk_repeat {p q : FieldWrite → Prop} {pre body : List FieldWrite}
    (hpre : ∀ e ∈ pre, p e) (hbody : ∀ e ∈ body, q e) (n : ℕ) :
    splitOk p q (pre ++ repeatBody body n) :=
  ⟨pre, repeatBody body n, rfl, hpre, fun e he => hbody e (mem_repeatBody he)⟩

open FieldName WriteOp

/-- Thermal convection notebook, before the loop:
`velocityField.data[:] = [0.,0.]`, `pressureField.data[:] = 0.`,
`temperatureDotField.data[:] = 0.`, the temperature initialisation loop,
the bottom-wall and top-wall assignments. -/
def convPrefix : List FieldWrite :=
  [⟨velocity, directAssign⟩, ⟨pressure, directAssign⟩, ⟨temperatureDot, directAssign⟩,
   ⟨temperature, directAssign⟩, ⟨temperature, directAssign⟩, ⟨temperature, directAssign⟩]

/-- Thermal convection loop body: `solver.solve()` writes the velocity
and pressure fields, `advDiff.integrate(dt)` the temperature fields. -/
def convBody : List FieldWrite :=
  [⟨velocity, solveCall⟩, ⟨pressure, solveCall⟩,
   ⟨temperature, advDiffIntegrateCall⟩, ⟨temperatureDot, advDiffIntegrateCall⟩]

/-- Thermal convection: all field writes when the loop runs `n` times. -/
def convFieldTrace (n : ℕ) : List FieldWrite := convPrefix ++ repeatBody convBody n

/-- Steady-state heat: `temperatureField.data[:] = 0.`, the bottom- and
top-wall assignments, then the single `heatsolver.solve()`. -/
def heatFieldTrace : List FieldWrite :=
  [⟨temperature, directAssign⟩, ⟨temperature, directAssign⟩,
   ⟨temperature, directAssign⟩] ++ [⟨temperature, solveCall⟩]

/-- Rayleigh-Taylor, before the loop: `velocityField.data[:] = [0.,0.]`,
`pressureField.data[:] = 0.`. -/
def rtPrefix : List FieldWrite := [⟨velocity, directAssign⟩, ⟨pressure, directAssign⟩]

/-- Rayleigh-Taylor loop body: `solver.solve()` writes velocity and
pressure; `advector.integrate(dt)` moves the swarm, not these fields. -/
def rtBodyMods : List FieldWrite := [⟨velocity, solveCall⟩, ⟨pressure, solveCall⟩]

/-- Rayleigh-Taylor: all field writes when the loop runs `n` times. -/
def rtFieldTrace (n : ℕ) : List FieldWrite := rtPrefix ++ repeatBody rtBodyMods n

/-- Uplift loop body: `solver.solve()` writes velocity and pressure; the
notebook never assigns into either field directly (its direct writes go
to `tractionField` and `materialVariable` only). -/
def upliftBodyMods : List FieldWrite := [⟨velocity, solveCall⟩, ⟨pressure, solveCall⟩]

/-- Uplift: all velocity/pressure/temperature writes when the loop runs
`n` times. -/
def upliftFieldTrace (n : ℕ) : List FieldWrite := [] ++ repeatBody upliftBodyMods n

/-- Blankenbach benchmark, before the loop, in its committed
configuration (`LoadFromFile = True`, `case = "a"`, `res = 128`):
the four zero fills of `velocityField`, `pressureField`,
`temperatureField`, `temperatureDotField`; then
`temperatureField64.load(inputPath+'tempfield_inp_64_Ra1e4.h5')` (a
library write to a temperature field); then the direct remeshing copy
`temperatureField.data[:] = temperatureField64.evaluate(mesh)`; then the
two wall-assignment loops. -/
def blankenbachPrefix : List FieldWrite :=
  [⟨velocity, directAssign⟩, ⟨pressure, directAssign⟩,
   ⟨temperature, directAssign⟩, ⟨temperatureDot, directAssign⟩,
   ⟨temperature, loadCall⟩, ⟨temperature, directAssign⟩,
   ⟨temperature, directAssign⟩, ⟨temperature, directAssign⟩]

/-- Blankenbach loop body (one full iteration): `solver.solve()` writes
velocity and pressure, `advDiff.integrate(dt)` (inside `update()`) the
temperature fields. -/
def blankenbachBody : List FieldWrite :=
  [⟨velocity, solveCall⟩, ⟨pressure, solveCall⟩,
   ⟨temperature, advDiffIntegrateCall⟩, ⟨temperatureDot, advDiffIntegrateCall⟩]

/-- Blankenbach, after the loop: `temperatureField0.load(...)`,
`pressureField0.load(...)`, `velocityField0.load(...)` onto the
non-partitioned mesh. -/
def blankenbachPost : List FieldWrite :=
  [⟨temperature, loadCall⟩, ⟨pressure, loadCall⟩, ⟨velocity, loadCall⟩]

/-- Blankenbach: all field writes when the loop runs `n` full iterations
and, when `partialEnd` is set, one further iteration that exits through
the Nusselt-convergence `break` after `solver.solve()` but before
`update()`. -/
def blankenbachTrace (n : ℕ) (partialEnd : Bool) : List FieldWrite :=
  blankenbachPrefix ++
    (repeatBody blankenbachBody n ++
      ((if partialEnd then [⟨velocity, solveCall⟩, ⟨pressure, solveCall⟩] else []) ++
        blankenbachPost))

/-- **C6, counterexample.** The claim fails on the Blankenbach benchmark
notebook (here after 2 loop iterations): its write trace admits no split
into direct assignments followed only by the claim's three enumerated
library calls — the post-loop `MeshVariable.load` calls into
`velocityField0`/`pressureField0`/`temperatureField0` are library writes
outside that list — and not even into direct assignments followed by
arbitrary library writes, because the direct copy
`temperatureField.data[:] = temperatureField64.evaluate(mesh)` comes
after the library write `temperatureField64.load(...)`. -/
theorem c6_blankenbach_counterexample :
    ¬ splitOk isDirect isClaimLib (blankenbachTrace 2 false) ∧
    ¬ splitOk isDirect isAnyLib (blankenbachTrace 2 false) := by
  constructor
  · intro h
    have hb := (splitOk_iff isDirect isClaimLib (blankenbachTrace 2 false)).mp h
    revert hb
    decide
  · intro h
    have hb := (splitOk_iff isDirect isAnyLib (blankenbachTrace 2 false)).mp h
    revert hb
    decide

/-- **C6, amended.** In the four notebooks without file loads (thermal
convection, steady-state heat, Rayleigh-Taylor, uplift) every direct
write to the velocity, pressure or temperature fields precedes every
library write, and all later writes are `Solver.solve` /
`AdvectionDiffusion.integrate` / `SwarmAdvector.integrate` events; in
the Blankenbach benchmark notebook the initialisation phase mixes direct
assignments with `MeshVariable.load` file loads, and everything after it
is one of those three calls or a `MeshVariable.load`.  In every notebook
the only non-direct writes are external library calls: the notebooks
define no finite-element assembly or linear-solver routine of their
own. -/
theorem c6_fields_library_discipline_amended (nConv nRT nUp nBb : ℕ)
    (partialEnd : Bool) :
    splitOk isDirect isClaimLib (convFieldTrace nConv) ∧
    splitOk isDirect isClaimLib heatFieldTrace ∧
    splitOk isDirect isClaimLib (rtFieldTrace nRT) ∧
    splitOk isDirect isClaimLib (upliftFieldTrace nUp) ∧
    splitOk isInitOk isAmendedLib (blankenbachTrace nBb partialEnd) := by
  refine ⟨?_, ?_, ?_, ?_, ?_⟩
  · exact splitOk_repeat (by decide) (by decide) nConv
  · exact ⟨_, _, rfl, by decide, by decide⟩
  · exact splitOk_repeat (by decide) (by decide) nRT
  · exact splitOk_repeat (by decide) (by decide) nUp
  · have hbody : ∀ e ∈ blankenbachBody, isAmendedLib e := by decide
    have hpart : ∀ e ∈ [(⟨FieldName.velocity, WriteOp.solveCall⟩ : FieldWrite),
        ⟨FieldName.pressure, WriteOp.solveCall⟩], isAmendedLib e := by decide
    have hpost : ∀ e ∈ blankenbachPost, isAmendedLib e := by decide
    refine ⟨blankenbachPrefix, _, rfl, by decide, ?_⟩
    intro e he
    rw [List.mem_append] at he
    rcases he with he | he
    · exact hbody e (mem_repeatBody he)
    · rw [List.mem_append] at he
      rcases he with he | he
      · cases partialEnd with
        | false => simp at he
        | true => exact hpart e he
      · exact hpost e he

end FieldMods

namespace TestCells

/-!
## C10: the verification test cells

```python
# thermal convection notebook
if not np.isclose(stokes.velocity_rms(), 8.70754e+01):
    raise RuntimeError("The Velocity RMS ... is not close to expected value ...")

# steady-state heat notebook
tottemp = uw.utils.Integral(temperatureField, mesh)
avtemp = tottemp.evaluate()[0] / (boxHeight*boxLength)
if not np.isclose(avtemp,0.5):
    raise RuntimeError("Incorrect average temperature produced by model. ")
```

`np.isclose(a, b)` with the default tolerances holds when
`|a - b| <= atol + rtol * |b|` with `atol = 1e-8` and `rtol = 1e-5`.
The externally computed check quantities (`stokes.velocity_rms()`, the
temperature integral) are parameters; the model state the cell could
touch is an arbitrary value `s` threaded through unchanged.  A raised
`RuntimeError` is an `Except.error`.
-/

/-- `np.isclose` at its default tolerances. -/
def isclose (a b : ℝ) : Prop := |a - b| ≤ 1e-8 + 1e-5 * |b|

open Classical in
/-- The thermal convection notebook's final test cell, acting on model
state `s` with `vrms = stokes.velocity_rms()`. -/
noncomputable def velocityRmsTest {σ : Type _} (s : σ) (vrms : ℝ) :
    σ × Except String Unit :=
  (s, if isclose vrms 87.0754 then Except.ok ()
      else Except.error "The Velocity RMS is not close to expected value")

open Classical in
/-- The steady-state heat notebook's final test cell, acting on model
state `s` with `tottempVal` the value of the temperature integral;
`avtemp = tottempVal / (boxHeight*boxLength)`. -/
noncomputable def avgTempTest {σ : Type _} (s : σ) (tottempVal : ℝ) :
    σ × Except String Unit :=
  (s, if isclose (tottempVal / (SSHeat.boxHeight * SSHeat.boxLength)) 0.5 then Except.ok ()
      else Except.error "Incorrect average temperature produced by model. ")

/-- **C10.** Each verification test cell raises `RuntimeError` exactly
when its closeness test fails — `np.isclose(stokes.velocity_rms(),
8.70754e+01)` for the thermal convection notebook,
`np.isclose(avtemp, 0.5)` for the steady-state heat notebook — and in
either outcome leaves the model state unchanged. -/
theorem c10_test_cells_raise_iff_not_close {σ : Type _} (s : σ)
    (vrms tottempVal : ℝ) :
    (velocityRmsTest s vrms).1 = s ∧
    ((∃ msg, (velocityRmsTest s vrms).2 = Except.error msg) ↔
      ¬ isclose vrms 87.0754) ∧
    (avgTempTest s tottempVal).1 = s ∧
    ((∃ msg, (avgTempTest s tottempVal).2 = Except.error msg) ↔
      ¬ isclose (tottempVal / (SSHeat.boxHeight * SSHeat.boxLength)) 0.5) := by
  refine ⟨rfl, ?_, rfl, ?_⟩
  · by_cases h : isclose vrms 87.0754
    · simp [velocityRmsTest, h]
    · simp [velocityRmsTest, h]
  · by_cases h : isclose (tottempVal / (SSHeat.boxHeight * SSHeat.boxLength)) 0.5
    · simp [avgTempTest, h]
    · simp [avgTempTest, h]

end TestCells
